import Mathlib

/-
Shallow embedding of the core of src/app.py (Work Memory Helper): the
SQLAlchemy data model (Project, Task, Note), the pydantic input schemas,
and the route handlers that make up the entity store, touch engine,
query layer and resume selector.  Timestamps are modelled as natural
numbers; all datetime.utcnow() calls issued while serving one request
are modelled as a single instant `now` passed to the operation.
HTTPException-raising paths are modelled with an explicit error type.
-/

namespace WorkMemory

/-- Error taxonomy of the route handlers.  The source raises
HTTPException(404, "Task not found") / (404, "Note not found") for
missing ids, and HTTPException(404, "No active tasks yet. Create one at
/ or POST /api/tasks.") from resume; pydantic request validation
failures surface as validation errors.  Constructors keep the messages
apart. -/
inductive Err where
  | validationError (msg : String)
  | notFound (msg : String)
  | noActiveTask
deriving DecidableEq, Repr

/-- Model of the projects table (src/app.py:23-29). -/
structure Project where
  id : Nat
  name : String
  created_at : Nat
deriving DecidableEq, Repr

/-- Model of the tasks table (src/app.py:31-45).  The updated_at column
is declared with onupdate=datetime.utcnow (src/app.py:41), so every
UPDATE statement on a task row refreshes it; this is modelled inside
touch_task and the patch path. -/
structure Task where
  id : Nat
  title : String
  description : String
  status : String
  next_action : String
  priority : Int
  project_id : Option Nat
  created_at : Nat
  updated_at : Nat
  last_touched_at : Nat
deriving DecidableEq, Repr

/-- Model of the notes table (src/app.py:47-55). -/
structure Note where
  id : Nat
  task_id : Nat
  content : String
  created_at : Nat
  kind : String
deriving DecidableEq, Repr

/-- Whole database state: the three tables plus the autoincrement
counters supplying fresh primary keys. -/
structure Store where
  projects : List Project
  tasks : List Task
  notes : List Note
  nextProjectId : Nat
  nextTaskId : Nat
  nextNoteId : Nat
deriving DecidableEq, Repr

/-- Python `s or d` on strings: the empty string is falsy. -/
def pyOrStr (s d : String) : String := if s = "" then d else s

/-- Python `n or d` on integers: 0 is falsy (negative ints are truthy). -/
def pyOrInt (n d : Int) : Int := if n = 0 then d else n

/-- Python str.strip(): the string with leading and trailing
whitespace removed, modelled structurally over the character list. -/
def pyStrip (s : String) : String :=
  String.mk (((s.data.dropWhile Char.isWhitespace).reverse.dropWhile Char.isWhitespace).reverse)

/-- db.query(Task).get(task_id): primary-key lookup. -/
def findTask (db : Store) (taskId : Nat) : Option Task :=
  db.tasks.find? (fun t => t.id == taskId)

/-- db.query(Note).get(note_id): primary-key lookup. -/
def findNote (db : Store) (noteId : Nat) : Option Note :=
  db.notes.find? (fun n => n.id == noteId)

/-- Pydantic schema TaskIn (src/app.py:84-90), after validation. -/
structure TaskIn where
  title : String
  description : String
  next_action : String
  priority : Int
  status : String
  project_name : Option String
deriving DecidableEq, Repr

/-- Pydantic schema TaskPatch (src/app.py:92-98): every field optional. -/
structure TaskPatch where
  title : Option String
  description : Option String
  next_action : Option String
  priority : Option Int
  status : Option String
  project_name : Option String
deriving DecidableEq, Repr

/-- Pydantic schema NoteIn (src/app.py:100-103), after validation. -/
structure NoteIn where
  task_id : Nat
  content : String
  kind : String
deriving DecidableEq, Repr

/-- get_or_create_project (src/app.py:131-141): `if not name` treats
both None and the empty string as absent; otherwise look the name up
and create the project with the current timestamp when missing. -/
def get_or_create_project (db : Store) (name : Option String) (now : Nat) :
    Option Project × Store :=
  match name with
  | none => (none, db)
  | some n =>
    if n = "" then (none, db)
    else
      match db.projects.find? (fun p => p.name == n) with
      | some p => (some p, db)
      | none =>
        let p : Project := { id := db.nextProjectId, name := n, created_at := now }
        (some p, { db with
                    projects := db.projects ++ [p],
                    nextProjectId := db.nextProjectId + 1 })

/-- Row update applied to the task with the given id by touch_task:
last_touched_at is assigned (src/app.py:144) and, because the commit
issues an UPDATE on the row, the onupdate hook of updated_at
(src/app.py:41) fires as well. -/
def touchFn (taskId : Nat) (now : Nat) (t : Task) : Task :=
  if t.id = taskId then { t with last_touched_at := now, updated_at := now } else t

/-- touch_task (src/app.py:143-147). -/
def touch_task (db : Store) (taskId : Nat) (now : Nat) : Store :=
  { db with tasks := db.tasks.map (touchFn taskId now) }

/-- create_task route body (src/app.py:534-547): resolve the project,
insert the task with column defaults for falsy description, next_action,
status and priority (Python `or`), then touch it. -/
def create_task (db : Store) (body : TaskIn) (now : Nat) : Task × Store :=
  let pr := get_or_create_project db body.project_name now
  let db1 := pr.2
  let task : Task :=
    { id := db1.nextTaskId
      title := body.title
      description := pyOrStr body.description ""
      next_action := pyOrStr body.next_action ""
      status := pyOrStr body.status "in_progress"
      priority := pyOrInt body.priority 2
      project_id := pr.1.map Project.id
      created_at := now
      updated_at := now
      last_touched_at := now }
  let db2 := { db1 with tasks := db1.tasks ++ [task], nextTaskId := db1.nextTaskId + 1 }
  let db3 := touch_task db2 task.id now
  ({ task with last_touched_at := now, updated_at := now }, db3)

/-- quick_capture route body (src/app.py:449-466), state part only: the
task is inserted with column defaults for status and priority, a
snapshot note is inserted when description.strip() is truthy, and the
task is touched.  String.trim models Python str.strip (both strip
surrounding whitespace). -/
def quick_capture (db : Store) (project_name : Option String)
    (title description next_act : String) (now : Nat) : Task × Store :=
  let pr := get_or_create_project db project_name now
  let db1 := pr.2
  let task : Task :=
    { id := db1.nextTaskId
      title := title
      description := description
      next_action := next_act
      status := "in_progress"
      priority := 2
      project_id := pr.1.map Project.id
      created_at := now
      updated_at := now
      last_touched_at := now }
  let db2 := { db1 with tasks := db1.tasks ++ [task], nextTaskId := db1.nextTaskId + 1 }
  let db3 :=
    if pyStrip description ≠ "" then
      { db2 with
          notes := db2.notes ++
            [{ id := db2.nextNoteId, task_id := task.id, content := description,
               created_at := now, kind := "snapshot" }],
          nextNoteId := db2.nextNoteId + 1 }
    else db2
  let db4 := touch_task db3 task.id now
  ({ task with last_touched_at := now, updated_at := now }, db4)

/-- get_task route (src/app.py:549-552). -/
def get_task (db : Store) (taskId : Nat) : Except Err Task :=
  match findTask db taskId with
  | none => .error (.notFound "Task not found")
  | some t => .ok t

/-- update_task route body (src/app.py:562-574): 404 when the id is
absent; otherwise each patch field that is not None is assigned, a
supplied project_name is re-resolved through get_or_create_project, and
the task is touched. -/
def update_task (db : Store) (taskId : Nat) (body : TaskPatch) (now : Nat) :
    Except Err Task × Store :=
  match findTask db taskId with
  | none => (.error (.notFound "Task not found"), db)
  | some task =>
    let t1 : Task :=
      { task with
          title := body.title.getD task.title
          description := body.description.getD task.description
          next_action := body.next_action.getD task.next_action
          priority := body.priority.getD task.priority
          status := body.status.getD task.status }
    let resolved :=
      match body.project_name with
      | none => (t1, db)
      | some pn =>
        let pr := get_or_create_project db (some pn) now
        ({ t1 with project_id := pr.1.map Project.id }, pr.2)
    let t2 := resolved.1
    let dbA := resolved.2
    let dbB := { dbA with tasks := dbA.tasks.map (fun u => if u.id = taskId then t2 else u) }
    let dbC := touch_task dbB taskId now
    (.ok { t2 with last_touched_at := now, updated_at := now }, dbC)

/-- create_note route body (src/app.py:577-584): 404 when the task id
is absent; otherwise the note is inserted (kind defaulted through
Python `or`, content stored as supplied with no emptiness check) and
the owning task is touched. -/
def create_note (db : Store) (body : NoteIn) (now : Nat) :
    Except Err Note × Store :=
  match findTask db body.task_id with
  | none => (.error (.notFound "Task not found"), db)
  | some task =>
    let note : Note :=
      { id := db.nextNoteId, task_id := task.id, content := body.content,
        created_at := now, kind := pyOrStr body.kind "note" }
    let db1 := { db with notes := db.notes ++ [note], nextNoteId := db.nextNoteId + 1 }
    let db2 := touch_task db1 task.id now
    (.ok note, db2)

/-- delete_task route body (src/app.py:763-770): 404 when absent;
otherwise db.delete(task) removes the row and the cascade declared on
Task.notes (src/app.py:45) deletes every note referencing it, all
committed together. -/
def delete_task (db : Store) (taskId : Nat) : Except Err Unit × Store :=
  match findTask db taskId with
  | none => (.error (.notFound "Task not found"), db)
  | some _ =>
    (.ok (), { db with
                tasks := db.tasks.filter (fun t => t.id != taskId),
                notes := db.notes.filter (fun n => n.task_id != taskId) })

/-- delete_note route body (src/app.py:772-779). -/
def delete_note (db : Store) (noteId : Nat) : Except Err Unit × Store :=
  match findNote db noteId with
  | none => (.error (.notFound "Note not found"), db)
  | some _ =>
    (.ok (), { db with notes := db.notes.filter (fun n => n.id != noteId) })

/-- Status filter used by resume (src/app.py:597):
Task.status.in_(["in_progress", "todo", "paused"]). -/
def activeStatuses : List String := ["in_progress", "todo", "paused"]

/-- Membership of a task in resume's status filter. -/
def isActive (t : Task) : Bool := activeStatuses.contains t.status

/-- ORDER BY last_touched_at DESC ... first(): an element with the
greatest last_touched_at.  Ties are left to storage order by the
source; this model keeps the earliest-stored among ties. -/
def pickMostRecent : List Task → Option Task
  | [] => none
  | t :: ts =>
    match pickMostRecent ts with
    | none => some t
    | some u => if t.last_touched_at < u.last_touched_at then some u else some t

/-- Descending created_at order used on the notes queries
(src/app.py:588-592, 603-606). -/
def noteGE (a b : Note) : Prop := b.created_at ≤ a.created_at

instance : DecidableRel noteGE :=
  fun a b => inferInstanceAs (Decidable (b.created_at ≤ a.created_at))

instance : IsTotal Note noteGE :=
  ⟨fun a b => Nat.le_total b.created_at a.created_at⟩

instance : IsTrans Note noteGE :=
  ⟨fun _ _ _ hab hbc => Nat.le_trans hbc hab⟩

/-- db.query(Note).filter(Note.task_id == taskId).order_by(Note.created_at.desc()). -/
def notesByCreatedDesc (db : Store) (taskId : Nat) : List Note :=
  List.insertionSort noteGE (db.notes.filter (fun n => n.task_id == taskId))

/-- list_notes route body (src/app.py:587-592), limit passed explicitly
(the route defaults it to 20). -/
def list_notes (db : Store) (taskId : Nat) (limit : Nat) : List Note :=
  (notesByCreatedDesc db taskId).take limit

/-- resume route body (src/app.py:594-608): filter on activeStatuses,
order by last_touched_at descending, take the first; 404 with the
"No active tasks" message when none; otherwise fetch the 5 most recent
notes of the selected task.  The handler issues no mutation, so the
store is returned as received. -/
def resume (db : Store) : Except Err (Task × List Note) × Store :=
  match pickMostRecent (db.tasks.filter isActive) with
  | none => (.error .noActiveTask, db)
  | some task => (.ok (task, (notesByCreatedDesc db task.id).take 5), db)

/-- Raw JSON value of one request field: `none` means the key is
absent, `some none` means the key is present with value null, and
`some (some v)` a present well-typed value. -/
abbrev RawField (α : Type) := Option (Option α)

/-- Raw request body for POST /api/tasks, before pydantic validation
against TaskIn (src/app.py:84-90). -/
structure RawTaskIn where
  title : RawField String
  description : RawField String
  next_action : RawField String
  priority : RawField Int
  status : RawField String
  project_name : RawField String
deriving DecidableEq, Repr

/-- Pydantic rule for a required plain `str` field: absent and null are
both rejected. -/
def reqStr (v : RawField String) (field : String) : Except Err String :=
  match v with
  | none => .error (.validationError (field ++ ": field required"))
  | some none => .error (.validationError (field ++ ": none is not an allowed value"))
  | some (some s) => .ok s

/-- Pydantic rule for a plain `str` field with a default: absent takes
the default, null is rejected. -/
def optStrD (v : RawField String) (d : String) (field : String) : Except Err String :=
  match v with
  | none => .ok d
  | some none => .error (.validationError (field ++ ": none is not an allowed value"))
  | some (some s) => .ok s

/-- Pydantic rule for a plain `int` field with a default: absent takes
the default, null is rejected. -/
def optIntD (v : RawField Int) (d : Int) (field : String) : Except Err Int :=
  match v with
  | none => .ok d
  | some none => .error (.validationError (field ++ ": none is not an allowed value"))
  | some (some n) => .ok n

/-- Pydantic rule for an `Optional[str] = None` field: absent and null
both give None. -/
def optNullableStr (v : RawField String) : Option String :=
  match v with
  | none => none
  | some o => o

/-- Pydantic validation of a raw body against TaskIn (src/app.py:84-90):
title is a required str; description, next_action, priority and status
are plain typed fields with defaults (so an explicit null is rejected,
it does not take the default); project_name is Optional[str].  Pydantic
reports all field errors at once; this model stops at the first, which
is enough to decide acceptance. -/
def TaskIn.validate (raw : RawTaskIn) : Except Err TaskIn :=
  match reqStr raw.title "title" with
  | .error e => .error e
  | .ok title =>
    match optStrD raw.description "" "description" with
    | .error e => .error e
    | .ok description =>
      match optStrD raw.next_action "" "next_action" with
      | .error e => .error e
      | .ok next_act =>
        match optIntD raw.priority 2 "priority" with
        | .error e => .error e
        | .ok priority =>
          match optStrD raw.status "in_progress" "status" with
          | .error e => .error e
          | .ok status =>
            .ok { title := title, description := description,
                  next_action := next_act, priority := priority,
                  status := status,
                  project_name := optNullableStr raw.project_name }

/-- POST /api/tasks as seen from the wire: pydantic validation of the
body, then the create_task handler. -/
def api_create_task (db : Store) (raw : RawTaskIn) (now : Nat) :
    Except Err Task × Store :=
  match TaskIn.validate raw with
  | .error e => (.error e, db)
  | .ok body =>
    let r := create_task db body now
    (.ok r.1, r.2)

/-- Well-formedness of a reachable store: primary keys are unique
(primary-key columns in the schema, src/app.py:25,33,49). -/
def StoreWF (db : Store) : Prop :=
  (db.tasks.map Task.id).Nodup ∧ (db.notes.map Note.id).Nodup ∧
    (db.projects.map Project.id).Nodup

/-- Recognizer for validation errors. -/
def Err.isValidation : Err → Bool
  | .validationError _ => true
  | _ => false

/-- An operation outcome that is a pydantic rejection. -/
def failsValidation {α : Type} (r : Except Err α) : Prop :=
  ∃ e, r = .error e ∧ e.isValidation = true

/-- One activity on a fixed task: a PATCH of its fields or a new note
on it. -/
inductive TaskAct where
  | patch (body : TaskPatch)
  | note (content kind : String)
deriving DecidableEq, Repr

/-- Store after performing one activity on the task at time now. -/
def applyAct (db : Store) (taskId : Nat) (a : TaskAct) (now : Nat) : Store :=
  match a with
  | .patch body => (update_task db taskId body now).2
  | .note c k => (create_note db { task_id := taskId, content := c, kind := k } now).2

/-- Store after a timed sequence of activities on one task. -/
def runActs (db : Store) (taskId : Nat) : List (TaskAct × Nat) → Store
  | [] => db
  | (a, tm) :: rest => runActs (applyAct db taskId a tm) taskId rest

/-- Observed last_touched_at of the task after each step of a timed
activity sequence (0 is never read when the task exists throughout). -/
def touchTrace (db : Store) (taskId : Nat) : List (TaskAct × Nat) → List Nat
  | [] => []
  | (a, tm) :: rest =>
    let db1 := applyAct db taskId a tm
    (((findTask db1 taskId).map Task.last_touched_at).getD 0) :: touchTrace db1 taskId rest

/-- Store with empty tables and fresh counters. -/
def mkEmptyStore : Store :=
  { projects := [], tasks := [], notes := [], nextProjectId := 1,
    nextTaskId := 1, nextNoteId := 1 }

/-- Concrete task used in witnesses and counterexamples. -/
def exTask : Task :=
  { id := 1, title := "t", description := "", status := "in_progress",
    next_action := "", priority := 2, project_id := none,
    created_at := 0, updated_at := 0, last_touched_at := 0 }

/-- Store holding the single concrete task. -/
def exStore : Store :=
  { mkEmptyStore with tasks := [exTask], nextTaskId := 2 }

/-- Observer: updated_at of the owning task after create_note. -/
def updatedAtAfterNote (db : Store) (body : NoteIn) (now : Nat) : Option Nat :=
  match create_note db body now with
  | (.ok _, db1) => (findTask db1 body.task_id).map Task.updated_at
  | (.error _, _) => none

/-- Observer: note returned by a successful create_note. -/
def noteOfCreate (db : Store) (body : NoteIn) (now : Nat) : Option Note :=
  match (create_note db body now).1 with
  | .ok n => some n
  | .error _ => none

/-- Observer: task returned by a successful POST /api/tasks. -/
def createdTask (db : Store) (raw : RawTaskIn) (now : Nat) : Option Task :=
  match (api_create_task db raw now).1 with
  | .ok t => some t
  | .error _ => none

/-- Raw body with an empty title and every other key absent. -/
def rawEmptyTitle : RawTaskIn :=
  { title := some (some ""), description := none, next_action := none,
    priority := none, status := none, project_name := none }

/-- Raw body carrying an explicit null description. -/
def rawNullDesc : RawTaskIn :=
  { title := some (some "t"), description := some none, next_action := none,
    priority := none, status := none, project_name := none }

/-- Task row stored by a successful update_task applied to row t: the
supplied patch fields, the re-resolved project when project_name is
supplied, and the touch (with the updated_at onupdate hook). -/
def patchedTask (db : Store) (body : TaskPatch) (now : Nat) (t : Task) : Task :=
  let t1 : Task :=
    { t with
        title := body.title.getD t.title
        description := body.description.getD t.description
        next_action := body.next_action.getD t.next_action
        priority := body.priority.getD t.priority
        status := body.status.getD t.status }
  let t2 : Task :=
    match body.project_name with
    | none => t1
    | some pn =>
      { t1 with project_id := ((get_or_create_project db (some pn) now).1).map Project.id }
  { t2 with last_touched_at := now, updated_at := now }

/-- Concrete note used in witnesses and counterexamples. -/
def exNote : Note :=
  { id := 1, task_id := 1, content := "c", created_at := 0, kind := "note" }

/-- Store holding the concrete task and one note on it. -/
def exStore2 : Store :=
  { exStore with notes := [exNote], nextNoteId := 2 }

/-- Concrete validated task body used in witnesses. -/
def exTaskIn : TaskIn :=
  { title := "t", description := "", next_action := "", priority := 2,
    status := "in_progress", project_name := none }

/-- Patch with every field absent. -/
def emptyPatch : TaskPatch :=
  { title := none, description := none, next_action := none, priority := none,
    status := none, project_name := none }

/-- The concrete task after an empty patch at time 5. -/
def exPatched : Task :=
  { exTask with updated_at := 5, last_touched_at := 5 }

/-- Raw body supplying the falsy values priority 0 and empty status. -/
def rawZeroPrio : RawTaskIn :=
  { title := some (some "t"), description := none, next_action := none,
    priority := some (some 0), status := some (some ""), project_name := none }

/-- Task created from rawZeroPrio on the empty store at time 3. -/
def exCreated : Task :=
  { id := 1, title := "t", description := "", status := "in_progress",
    next_action := "", priority := 2, project_id := none,
    created_at := 3, updated_at := 3, last_touched_at := 3 }

/-- Store resulting from that creation. -/
def exCreatedStore : Store :=
  { projects := [], tasks := [exCreated], notes := [], nextProjectId := 1,
    nextTaskId := 2, nextNoteId := 1 }

/-- The touch row-update preserves the primary key. -/
theorem touchFn_id (taskId now : Nat) (t : Task) : (touchFn taskId now t).id = t.id := by
  unfold touchFn
  split <;> rfl

/-- Primary-key lookup commutes with a map that preserves ids. -/
theorem find?_map_id (f : Task → Task) (hf : ∀ t, (f t).id = t.id) (j : Nat) :
    ∀ l : List Task,
      (l.map f).find? (fun t => t.id == j) = (l.find? (fun t => t.id == j)).map f := by
  intro l
  induction l with
  | nil => rfl
  | cons hd tl ih =>
    simp only [List.map_cons, List.find?_cons]
    rw [hf hd]
    cases h : (hd.id == j) <;> simp [h, ih]

/-- Lookup after touch_task: the found row, touched. -/
theorem findTask_touch (db : Store) (i now j : Nat) :
    findTask (touch_task db i now) j = (findTask db j).map (touchFn i now) := by
  unfold findTask touch_task
  exact find?_map_id (touchFn i now) (touchFn_id i now) j db.tasks

/-- A successful primary-key lookup returns a stored row with that key. -/
theorem findTask_some {db : Store} {j : Nat} {t : Task} (h : findTask db j = some t) :
    t.id = j ∧ t ∈ db.tasks := by
  unfold findTask at h
  refine ⟨?_, List.mem_of_find?_eq_some h⟩
  have := List.find?_some h
  simpa using this

/-- pickMostRecent returns none only on the empty list. -/
theorem pickMostRecent_none {l : List Task} (h : pickMostRecent l = none) : l = [] := by
  cases l with
  | nil => rfl
  | cons t ts =>
    unfold pickMostRecent at h
    cases hr : pickMostRecent ts <;> rw [hr] at h <;> simp at h
    split at h <;> cases h

/-- pickMostRecent returns a member of the list. -/
theorem pickMostRecent_mem : ∀ {l : List Task} {t : Task}, pickMostRecent l = some t → t ∈ l := by
  intro l
  induction l with
  | nil => intro t h; cases h
  | cons hd tl ih =>
    intro t h
    unfold pickMostRecent at h
    cases hr : pickMostRecent tl with
    | none =>
      rw [hr] at h
      cases h
      exact List.mem_cons_self _ _
    | some u =>
      rw [hr] at h
      have h2 : (if hd.last_touched_at < u.last_touched_at then some u else some hd) = some t := h
      by_cases hc : hd.last_touched_at < u.last_touched_at
      · rw [if_pos hc] at h2
        cases h2
        exact List.mem_cons_of_mem _ (ih hr)
      · rw [if_neg hc] at h2
        cases h2
        exact List.mem_cons_self _ _

/-- pickMostRecent returns an element with the greatest last_touched_at. -/
theorem pickMostRecent_max : ∀ {l : List Task} {t : Task}, pickMostRecent l = some t →
    ∀ u ∈ l, u.last_touched_at ≤ t.last_touched_at := by
  intro l
  induction l with
  | nil => intro t h; cases h
  | cons hd tl ih =>
    intro t h u hu
    unfold pickMostRecent at h
    cases hr : pickMostRecent tl with
    | none =>
      rw [hr] at h
      cases h
      have hnil : tl = [] := pickMostRecent_none hr
      subst hnil
      rcases List.mem_cons.mp hu with rfl | hmem
      · exact Nat.le_refl _
      · cases hmem
    | some v =>
      rw [hr] at h
      have h2 : (if hd.last_touched_at < v.last_touched_at then some v else some hd) = some t := h
      by_cases hc : hd.last_touched_at < v.last_touched_at
      · rw [if_pos hc] at h2
        cases h2
        rcases List.mem_cons.mp hu with rfl | hmem
        · exact Nat.le_of_lt hc
        · exact ih hr u hmem
      · rw [if_neg hc] at h2
        cases h2
        rcases List.mem_cons.mp hu with rfl | hmem
        · exact Nat.le_refl _
        · exact Nat.le_trans (ih hr u hmem) (Nat.le_of_not_lt hc)

/-- get_or_create_project only ever appends to the projects table. -/
theorem goc_frame (db : Store) (name : Option String) (now : Nat) :
    (get_or_create_project db name now).2.tasks = db.tasks ∧
    (get_or_create_project db name now).2.notes = db.notes ∧
    (get_or_create_project db name now).2.nextTaskId = db.nextTaskId ∧
    (get_or_create_project db name now).2.nextNoteId = db.nextNoteId := by
  unfold get_or_create_project
  cases name with
  | none => exact ⟨rfl, rfl, rfl, rfl⟩
  | some n =>
    by_cases h : n = ""
    · simp [h]
    · simp only [if_neg h]
      split <;> simp

/-- C8: resume is read-only: it returns the store unchanged (so the
selected task's last_touched_at is untouched), and a second resume on
the resulting store returns identical output. -/
theorem resume_read_only (db : Store) :
    (resume db).2 = db ∧ (resume (resume db).2).1 = (resume db).1 := by
  have h2 : (resume db).2 = db := by
    unfold resume
    split <;> rfl
  exact ⟨h2, by rw [h2]⟩

/-- C1: resume considers exactly the tasks whose status is todo,
in_progress or paused, fails with the no-active-task error when no
task has such a status, and otherwise returns a task with the greatest
last_touched_at among them together with at most 5 of its notes in
created_at-descending order. -/
theorem resume_selector_correct (db : Store) :
    (∀ t : Task, isActive t = true ↔
        (t.status = "todo" ∨ t.status = "in_progress" ∨ t.status = "paused")) ∧
    ((∀ t ∈ db.tasks, isActive t = false) → (resume db).1 = .error .noActiveTask) ∧
    (∀ task notes, (resume db).1 = .ok (task, notes) →
        task ∈ db.tasks ∧ isActive task = true ∧
        (∀ u ∈ db.tasks, isActive u = true →
            u.last_touched_at ≤ task.last_touched_at) ∧
        notes.length ≤ 5 ∧
        (∀ n ∈ notes, n ∈ db.notes ∧ n.task_id = task.id) ∧
        List.Sorted noteGE notes) := by
  refine ⟨?_, ?_, ?_⟩
  · intro t
    simp [isActive, activeStatuses, List.contains]
    tauto
  · intro hall
    have hnil : db.tasks.filter isActive = [] := by
      rw [List.filter_eq_nil_iff]
      intro a ha
      simp [hall a ha]
    unfold resume
    rw [hnil]
    rfl
  · intro task notes h
    unfold resume at h
    cases hp : pickMostRecent (db.tasks.filter isActive) with
    | none => rw [hp] at h; cases h
    | some t0 =>
      rw [hp] at h
      have hts : t0 = task ∧ (notesByCreatedDesc db t0.id).take 5 = notes := by
        simpa [Prod.ext_iff] using h
      obtain ⟨rfl, rfl⟩ := hts
      have hmem := pickMostRecent_mem hp
      have hmem' := List.mem_filter.mp hmem
      refine ⟨hmem'.1, hmem'.2, ?_, ?_, ?_, ?_⟩
      · intro u hu hact
        exact pickMostRecent_max hp u (List.mem_filter.mpr ⟨hu, hact⟩)
      · exact List.length_take_le 5 _
      · intro n hn
        have hn1 : n ∈ notesByCreatedDesc db t0.id := List.take_subset 5 _ hn
        have hn2 : n ∈ db.notes.filter (fun m => m.task_id == t0.id) :=
          (List.perm_insertionSort noteGE _).mem_iff.mp hn1
        have hn3 := List.mem_filter.mp hn2
        exact ⟨hn3.1, by simpa using hn3.2⟩
      · exact List.Pairwise.sublist (List.take_sublist 5 _)
          (List.sorted_insertionSort noteGE _)

/-- Closed instance of resume_selector_correct at a concrete store. -/
theorem resume_selector_correct_witness :
    exTask ∈ exStore.tasks ∧ isActive exTask = true := by
  have h := (resume_selector_correct exStore).2.2 exTask [] rfl
  exact ⟨h.1, h.2.1⟩

/-- C2 counterexample: POST /api/tasks with the non-empty description
"hello" creates no snapshot note at all, and quick capture with the
non-empty but blank description " " creates none either. -/
theorem create_task_snapshot_counterexample :
    ¬ ("hello" = "") ∧
    (create_task mkEmptyStore
      { title := "t", description := "hello", next_action := "",
        priority := 2, status := "in_progress", project_name := none } 0).2.notes = [] ∧
    ¬ (" " = "") ∧
    (quick_capture mkEmptyStore none "t" " " "" 0).2.notes = [] := by decide

/-- C2 amended: the create-task operation never creates a note; quick
capture creates exactly one snapshot-kind note referencing the new
task, with content equal to the supplied description, precisely when
the description is non-blank after stripping whitespace, and no note
otherwise. -/
theorem snapshot_note_amended (db : Store) (body : TaskIn) (pn : Option String)
    (ti de na : String) (now : Nat) :
    (create_task db body now).2.notes = db.notes ∧
    (pyStrip de ≠ "" → (quick_capture db pn ti de na now).2.notes =
        db.notes ++ [{ id := db.nextNoteId,
                       task_id := (quick_capture db pn ti de na now).1.id,
                       content := de, created_at := now, kind := "snapshot" }]) ∧
    (pyStrip de = "" → (quick_capture db pn ti de na now).2.notes = db.notes) := by
  obtain ⟨hT, hN, hTi, hNi⟩ := goc_frame db body.project_name now
  obtain ⟨gT, gN, gTi, gNi⟩ := goc_frame db pn now
  refine ⟨?_, ?_, ?_⟩
  · simp [create_task, touch_task, hN]
  · intro hde
    simp [quick_capture, touch_task, hde, gN, gNi, gTi]
  · intro hde
    simp [quick_capture, touch_task, hde, gN]

/-- Closed instance of snapshot_note_amended at concrete inputs. -/
theorem snapshot_note_amended_witness :
    (quick_capture mkEmptyStore none "t" "ctx" "" 7).2.notes =
      mkEmptyStore.notes ++
        [{ id := mkEmptyStore.nextNoteId,
           task_id := (quick_capture mkEmptyStore none "t" "ctx" "" 7).1.id,
           content := "ctx", created_at := 7, kind := "snapshot" }] :=
  (snapshot_note_amended mkEmptyStore exTaskIn none "t" "ctx" "" 7).2.1 (by decide)

/-- Lookup is unaffected by replacing the notes table and note counter. -/
theorem findTask_set_notes (db : Store) (ns : List Note) (k j : Nat) :
    findTask { db with notes := ns, nextNoteId := k } j = findTask db j := rfl

/-- Outcome of create_note on an existing task: the note it returns
and the touched row stored for the owning task. -/
theorem create_note_ok {db : Store} {body : NoteIn} {now : Nat} {t : Task}
    (h : findTask db body.task_id = some t) :
    (create_note db body now).1 =
      .ok { id := db.nextNoteId, task_id := body.task_id,
            content := body.content, created_at := now, kind := pyOrStr body.kind "note" } ∧
    findTask (create_note db body now).2 body.task_id =
      some { t with last_touched_at := now, updated_at := now } := by
  have hid := (findTask_some h).1
  constructor
  · simp [create_note, h, hid]
  · simp only [create_note, h]
    rw [findTask_touch, findTask_set_notes, h]
    simp [touchFn, hid]

/-- C3 counterexample: on a store whose task has updated_at 0,
creating a note at time 5 leaves the task with updated_at 5, so
note-only activity does change updated_at. -/
theorem note_updated_at_counterexample :
    updatedAtAfterNote exStore { task_id := 1, content := "c", kind := "note" } 5 = some 5 ∧
    (findTask exStore 1).map Task.updated_at = some 0 := by decide

/-- C3 amended: creating a note on an existing task refreshes both the
task's last_touched_at and its updated_at to the current time: the
touch issues an UPDATE on the task row, so the updated_at column's
onupdate hook fires even though only note activity occurred. -/
theorem create_note_touch_amended (db : Store) (body : NoteIn) (now : Nat) (t : Task)
    (h : findTask db body.task_id = some t) :
    (findTask (create_note db body now).2 body.task_id).map Task.last_touched_at = some now ∧
    (findTask (create_note db body now).2 body.task_id).map Task.updated_at = some now := by
  rw [(create_note_ok h).2]
  simp

/-- Closed instance of create_note_touch_amended at concrete inputs. -/
theorem create_note_touch_amended_witness :
    (findTask (create_note exStore { task_id := 1, content := "c", kind := "note" } 5).2 1).map
        Task.last_touched_at = some 5 ∧
    (findTask (create_note exStore { task_id := 1, content := "c", kind := "note" } 5).2 1).map
        Task.updated_at = some 5 :=
  create_note_touch_amended exStore { task_id := 1, content := "c", kind := "note" } 5 exTask
    (by decide)

/-- C4 counterexample: POST /api/tasks with an empty title passes
validation (TaskIn declares title as a plain str with no length bound,
unlike ProjectIn) and creates a task with the empty title instead of
failing with a validation error. -/
theorem create_task_empty_title_counterexample :
    (createdTask mkEmptyStore rawEmptyTitle 3).map Task.title = some "" ∧
    (api_create_task mkEmptyStore rawEmptyTitle 3).2.tasks.length = 1 := by decide

/-- Touching a row whose timestamps already carry the touch time is a
no-op on that row. -/
theorem touchFn_self (t : Task) (now : Nat)
    (h1 : t.last_touched_at = now) (h2 : t.updated_at = now) :
    touchFn t.id now t = t := by
  cases t
  simp_all [touchFn]

/-- Freshly inserted then touched task is a member of the task table. -/
theorem mem_touch_append (l : List Task) (t : Task) (now : Nat)
    (h1 : t.last_touched_at = now) (h2 : t.updated_at = now) :
    t ∈ (l ++ [t]).map (touchFn t.id now) :=
  List.mem_map.mpr ⟨t, by simp, touchFn_self t now h1 h2⟩

/-- C4 amended: the create-task operation validates nothing about the
title: every call succeeds, the task is created with the given title
verbatim (the empty title included), its created_at, updated_at and
last_touched_at are all set to the current time, and the pydantic
boundary accepts an empty title string. -/
theorem create_task_total_amended :
    (∀ (db : Store) (body : TaskIn) (now : Nat),
        (create_task db body now).1.title = body.title ∧
        (create_task db body now).1.created_at = now ∧
        (create_task db body now).1.updated_at = now ∧
        (create_task db body now).1.last_touched_at = now ∧
        (create_task db body now).1 ∈ (create_task db body now).2.tasks) ∧
    (∀ (d na st : String) (p : Int) (pn : RawField String),
        TaskIn.validate
            { title := some (some ""), description := some (some d),
              next_action := some (some na), priority := some (some p),
              status := some (some st), project_name := pn } =
          .ok { title := "", description := d, next_action := na, priority := p,
                status := st, project_name := optNullableStr pn }) := by
  constructor
  · intro db body now
    refine ⟨rfl, rfl, rfl, rfl, ?_⟩
    simp only [create_task, touch_task]
    exact mem_touch_append _ _ _ rfl rfl
  · intro d na st p pn
    rfl

/-- C5 counterexample: create_note with empty content on an existing
task succeeds and stores a note whose content is the empty string,
instead of failing with a validation error. -/
theorem create_note_empty_content_counterexample :
    (noteOfCreate exStore { task_id := 1, content := "", kind := "note" } 5).map Note.content =
      some "" ∧
    (create_note exStore { task_id := 1, content := "", kind := "note" } 5).2.notes.length = 1 := by
  decide

/-- C5 amended: create_note fails with the not-found error and leaves
the store unchanged when the task id does not exist; the content is
not validated, so empty content is accepted and stored verbatim; on
success the note is created and the owning task is touched
(last_touched_at refreshed to the current time). -/
theorem create_note_amended (db : Store) (body : NoteIn) (now : Nat) :
    (findTask db body.task_id = none →
        create_note db body now = (.error (.notFound "Task not found"), db)) ∧
    (∀ t, findTask db body.task_id = some t →
        (create_note db body now).1 =
          .ok { id := db.nextNoteId, task_id := body.task_id,
                content := body.content, created_at := now, kind := pyOrStr body.kind "note" } ∧
        (findTask (create_note db body now).2 body.task_id).map Task.last_touched_at =
          some now) := by
  constructor
  · intro h
    simp [create_note, h]
  · intro t h
    exact ⟨(create_note_ok h).1, by simp [(create_note_ok h).2]⟩

/-- Closed instance of create_note_amended at a store missing the task. -/
theorem create_note_amended_witness :
    create_note mkEmptyStore { task_id := 1, content := "c", kind := "note" } 5 =
      (.error (.notFound "Task not found"), mkEmptyStore) :=
  (create_note_amended mkEmptyStore { task_id := 1, content := "c", kind := "note" } 5).1 rfl

/-- Lookup depends only on the tasks table. -/
theorem findTask_congr {db1 db2 : Store} (h : db1.tasks = db2.tasks) (j : Nat) :
    findTask db1 j = findTask db2 j := by
  unfold findTask
  rw [h]

/-- Field values of the row stored by a successful update_task. -/
theorem patchedTask_fields (db : Store) (body : TaskPatch) (now : Nat) (t : Task) :
    (patchedTask db body now t).title = body.title.getD t.title ∧
    (patchedTask db body now t).description = body.description.getD t.description ∧
    (patchedTask db body now t).next_action = body.next_action.getD t.next_action ∧
    (patchedTask db body now t).priority = body.priority.getD t.priority ∧
    (patchedTask db body now t).status = body.status.getD t.status ∧
    (patchedTask db body now t).id = t.id ∧
    (patchedTask db body now t).created_at = t.created_at ∧
    (patchedTask db body now t).last_touched_at = now ∧
    (patchedTask db body now t).updated_at = now ∧
    (body.project_name = none → (patchedTask db body now t).project_id = t.project_id) ∧
    (∀ pn, body.project_name = some pn →
        (patchedTask db body now t).project_id =
          ((get_or_create_project db (some pn) now).1).map Project.id) := by
  cases hpn : body.project_name <;> simp [patchedTask, hpn]

/-- Replacing the row with the given id and then touching it stores
the touched replacement under that id. -/
theorem findTask_replace_touch (dbA : Store) (taskId now : Nat) (t t2 : Task)
    (hfind : findTask dbA taskId = some t) (hid2 : t2.id = taskId) :
    findTask
        (touch_task
          { dbA with tasks := dbA.tasks.map (fun u => if u.id = taskId then t2 else u) }
          taskId now)
        taskId =
      some { t2 with last_touched_at := now, updated_at := now } := by
  have hg : ∀ u : Task, ((fun u => if u.id = taskId then t2 else u) u).id = u.id := by
    intro u
    by_cases hu : u.id = taskId <;> simp [hu, hid2]
  rw [findTask_touch]
  have hrepl : findTask
      { dbA with tasks := dbA.tasks.map (fun u => if u.id = taskId then t2 else u) } taskId
      = (findTask dbA taskId).map (fun u => if u.id = taskId then t2 else u) := by
    unfold findTask
    exact find?_map_id _ hg taskId dbA.tasks
  rw [hrepl, hfind]
  simp [touchFn, (findTask_some hfind).1, hid2]

/-- Outcome of update_task on an existing task: the returned row and
the row stored under the id are both the patched task. -/
theorem update_task_ok (body : TaskPatch) (now : Nat) {db : Store} {taskId : Nat} {t : Task}
    (h : findTask db taskId = some t) :
    (update_task db taskId body now).1 = .ok (patchedTask db body now t) ∧
    findTask (update_task db taskId body now).2 taskId = some (patchedTask db body now t) := by
  have hid := (findTask_some h).1
  constructor
  · simp only [update_task, h, patchedTask]
    cases hpn : body.project_name <;> simp [hpn]
  · simp only [update_task, h]
    cases hpn : body.project_name with
    | none =>
      simp only [hpn]
      rw [findTask_replace_touch db taskId now t _ h (by simp [hid])]
      simp [patchedTask, hpn]
    | some pn =>
      simp only [hpn]
      have hA : findTask (get_or_create_project db (some pn) now).2 taskId = some t := by
        rw [findTask_congr (goc_frame db (some pn) now).1 taskId]
        exact h
      rw [findTask_replace_touch _ taskId now t _ hA (by simp [hid])]
      simp [patchedTask, hpn]

/-- update_task never changes the notes table. -/
theorem update_task_notes (db : Store) (taskId : Nat) (body : TaskPatch) (now : Nat) :
    (update_task db taskId body now).2.notes = db.notes := by
  cases h : findTask db taskId with
  | none => simp [update_task, h]
  | some t =>
    simp only [update_task, h]
    cases hpn : body.project_name with
    | none => simp [hpn, touch_task]
    | some pn => simp [hpn, touch_task, (goc_frame db (some pn) now).2.1]

/-- C6: update_task on an existing id applies exactly the fields
present in the patch: every omitted field other than the refreshed
updated_at and last_touched_at keeps its previous value, each supplied
field takes the supplied value (project_name through
get_or_create_project), the stored row equals the returned row, the
notes table is untouched, and a missing id yields the not-found error
with the store unchanged. -/
theorem update_task_partial_patch (db : Store) (taskId : Nat) (body : TaskPatch) (now : Nat) :
    (findTask db taskId = none →
        update_task db taskId body now = (.error (.notFound "Task not found"), db)) ∧
    (∀ t t2, findTask db taskId = some t →
        (update_task db taskId body now).1 = .ok t2 →
        (body.title = none → t2.title = t.title) ∧
        (body.description = none → t2.description = t.description) ∧
        (body.next_action = none → t2.next_action = t.next_action) ∧
        (body.priority = none → t2.priority = t.priority) ∧
        (body.status = none → t2.status = t.status) ∧
        (body.project_name = none → t2.project_id = t.project_id) ∧
        t2.id = t.id ∧ t2.created_at = t.created_at ∧
        (∀ s, body.title = some s → t2.title = s) ∧
        (∀ s, body.description = some s → t2.description = s) ∧
        (∀ s, body.next_action = some s → t2.next_action = s) ∧
        (∀ p, body.priority = some p → t2.priority = p) ∧
        (∀ s, body.status = some s → t2.status = s) ∧
        (∀ pn, body.project_name = some pn →
            t2.project_id = ((get_or_create_project db (some pn) now).1).map Project.id) ∧
        t2.last_touched_at = now ∧ t2.updated_at = now ∧
        findTask (update_task db taskId body now).2 taskId = some t2 ∧
        (update_task db taskId body now).2.notes = db.notes) := by
  constructor
  · intro h
    simp [update_task, h]
  · intro t t2 h h1
    rw [(update_task_ok body now h).1] at h1
    injection h1 with h2
    subst h2
    obtain ⟨f1, f2, f3, f4, f5, f6, f7, f8, f9, f10, f11⟩ := patchedTask_fields db body now t
    refine ⟨fun hx => by simp [f1, hx], fun hx => by simp [f2, hx],
      fun hx => by simp [f3, hx], fun hx => by simp [f4, hx], fun hx => by simp [f5, hx],
      f10, f6, f7,
      fun s hx => by simp [f1, hx], fun s hx => by simp [f2, hx],
      fun s hx => by simp [f3, hx], fun p hx => by simp [f4, hx],
      fun s hx => by simp [f5, hx], f11, f8, f9,
      (update_task_ok body now h).2, update_task_notes db taskId body now⟩

/-- Closed instance of update_task_partial_patch at concrete inputs. -/
theorem update_task_partial_patch_witness :
    exPatched.title = exTask.title ∧ exPatched.created_at = exTask.created_at := by
  have h := (update_task_partial_patch exStore 1 emptyPatch 5).2 exTask exPatched rfl rfl
  exact ⟨h.1 rfl, h.2.2.2.2.2.2.2.1⟩

/-- C7: delete_task on an existing id removes the task and every note
referencing it in one step: afterwards lookup of the task id fails
with the not-found error, deleting any of those note ids fails with
the not-found error, and no stored note references the task; deleting
a missing id fails with the not-found error and leaves the store
unchanged. -/
theorem delete_task_cascade (db : Store) (taskId : Nat) :
    (findTask db taskId = none →
        delete_task db taskId = (.error (.notFound "Task not found"), db)) ∧
    (∀ t, StoreWF db → findTask db taskId = some t →
        (delete_task db taskId).1 = .ok () ∧
        get_task (delete_task db taskId).2 taskId = .error (.notFound "Task not found") ∧
        (∀ n ∈ db.notes, n.task_id = taskId →
            (delete_note (delete_task db taskId).2 n.id).1 =
              .error (.notFound "Note not found")) ∧
        (∀ m ∈ (delete_task db taskId).2.notes, m.task_id ≠ taskId)) := by
  constructor
  · intro h
    simp [delete_task, h]
  · intro t hwf h
    have hdel : (delete_task db taskId).2 =
        { db with tasks := db.tasks.filter (fun u => u.id != taskId),
                  notes := db.notes.filter (fun n => n.task_id != taskId) } := by
      simp [delete_task, h]
    refine ⟨by simp [delete_task, h], ?_, ?_, ?_⟩
    · rw [hdel]
      have hnone : findTask
          { db with tasks := db.tasks.filter (fun u => u.id != taskId),
                    notes := db.notes.filter (fun n => n.task_id != taskId) } taskId = none := by
        unfold findTask
        rw [List.find?_eq_none]
        intro x hx
        have hxne : x.id ≠ taskId := by simpa using (List.mem_filter.mp hx).2
        simpa using hxne
      simp [get_task, hnone]
    · intro n hn htid
      rw [hdel]
      have hnone : (db.notes.filter (fun m => m.task_id != taskId)).find?
          (fun m => m.id == n.id) = none := by
        rw [List.find?_eq_none]
        intro m hm
        obtain ⟨hmem, hneq⟩ := List.mem_filter.mp hm
        have hneq2 : m.task_id ≠ taskId := by simpa using hneq
        intro hbeq
        have hids : m.id = n.id := by simpa using hbeq
        have hmn : m = n := List.inj_on_of_nodup_map hwf.2.1 hmem hn hids
        exact hneq2 (hmn ▸ htid)
      simp [delete_note, findNote, hnone]
    · intro m hm
      rw [hdel] at hm
      simpa using (List.mem_filter.mp hm).2

/-- Closed instance of delete_task_cascade at concrete inputs. -/
theorem delete_task_cascade_witness :
    (delete_task exStore2 1).1 = .ok () ∧
    (delete_note (delete_task exStore2 1).2 1).1 = .error (.notFound "Note not found") := by
  have h := (delete_task_cascade exStore2 1).2 exTask ⟨by decide, by decide, by decide⟩ rfl
  exact ⟨h.1, h.2.2.1 exNote (by decide) rfl⟩

/-- One activity on an existing task keeps the task stored and stamps
its last_touched_at with the activity's time. -/
theorem applyAct_touches {db : Store} {taskId : Nat} {t : Task} (a : TaskAct) (tm : Nat)
    (h : findTask db taskId = some t) :
    ∃ u, findTask (applyAct db taskId a tm) taskId = some u ∧ u.last_touched_at = tm := by
  cases a with
  | patch body =>
    exact ⟨patchedTask db body tm t, (update_task_ok body tm h).2, rfl⟩
  | note c k =>
    exact ⟨{ t with last_touched_at := tm, updated_at := tm }, (create_note_ok h).2, rfl⟩

/-- The value observed after each activity is that activity's
timestamp. -/
theorem touchTrace_times :
    ∀ (acts : List (TaskAct × Nat)) (db : Store) (taskId : Nat) (t : Task),
      findTask db taskId = some t →
      touchTrace db taskId acts = acts.map Prod.snd := by
  intro acts
  induction acts with
  | nil => intro db taskId t h; rfl
  | cons p rest ih =>
    intro db taskId t h
    obtain ⟨a, tm⟩ := p
    obtain ⟨u, hu, hutm⟩ := applyAct_touches a tm h
    simp only [touchTrace, List.map_cons]
    rw [hu]
    simp [hutm, ih _ _ u hu]

/-- C9: across any timed sequence of update-task and create-note
activities on an existing task, when the clock is non-decreasing
(starting from the reading stored in the task), the successive values
of the task's last_touched_at are exactly the activity timestamps and
form a non-decreasing chain. -/
theorem last_touched_monotone (db : Store) (taskId : Nat) (t : Task)
    (acts : List (TaskAct × Nat)) (hfind : findTask db taskId = some t)
    (hclock : List.Chain' (fun a b => a ≤ b) (t.last_touched_at :: acts.map Prod.snd)) :
    touchTrace db taskId acts = acts.map Prod.snd ∧
    List.Chain' (fun a b => a ≤ b) (t.last_touched_at :: touchTrace db taskId acts) := by
  have h1 := touchTrace_times acts db taskId t hfind
  exact ⟨h1, by rw [h1]; exact hclock⟩

/-- Closed instance of last_touched_monotone at concrete inputs. -/
theorem last_touched_monotone_witness :
    touchTrace exStore 1 [(TaskAct.note "a" "note", 3), (TaskAct.patch emptyPatch, 7)] =
      [3, 7] := by
  have h := last_touched_monotone exStore 1 exTask
    [(TaskAct.note "a" "note", 3), (TaskAct.patch emptyPatch, 7)] rfl
    (by simp [List.chain'_cons, exTask])
  exact h.1

/-- C10 counterexample: an explicit null description is rejected by
pydantic validation (description is a plain str field), so the call
fails and no task with the default description is created. -/
theorem null_description_counterexample :
    api_create_task mkEmptyStore rawNullDesc 3 =
      (.error (.validationError "description: none is not an allowed value"), mkEmptyStore) ∧
    createdTask mkEmptyStore rawNullDesc 3 = none := ⟨rfl, rfl⟩

/-- A validation rejection of a whole request. -/
theorem failsValidation_error {α : Type} (m : String) :
    failsValidation (Except.error (Err.validationError m) : Except Err α) :=
  ⟨Err.validationError m, rfl, rfl⟩

/-- reqStr only fails with validation errors. -/
theorem reqStr_error {v : RawField String} {field : String} {e : Err}
    (h : reqStr v field = .error e) : e.isValidation = true := by
  rcases v with _ | (_ | s) <;> simp_all [reqStr, Err.isValidation] <;> subst h <;> rfl

/-- optStrD only fails with validation errors. -/
theorem optStrD_error {v : RawField String} {d field : String} {e : Err}
    (h : optStrD v d field = .error e) : e.isValidation = true := by
  rcases v with _ | (_ | s) <;> simp_all [optStrD, Err.isValidation] <;> subst h <;> rfl

/-- optIntD only fails with validation errors. -/
theorem optIntD_error {v : RawField Int} {d : Int} {field : String} {e : Err}
    (h : optIntD v d field = .error e) : e.isValidation = true := by
  rcases v with _ | (_ | n) <;> simp_all [optIntD, Err.isValidation] <;> subst h <;> rfl

/-- Every error produced by TaskIn.validate is a validation error. -/
theorem validate_error_isValidation (raw : RawTaskIn) {e : Err}
    (h : TaskIn.validate raw = .error e) : e.isValidation = true := by
  unfold TaskIn.validate at h
  cases h1 : reqStr raw.title "title" with
  | error e1 =>
    simp only [h1] at h
    cases h
    exact reqStr_error h1
  | ok title =>
    simp only [h1] at h
    cases h2 : optStrD raw.description "" "description" with
    | error e2 =>
      simp only [h2] at h
      cases h
      exact optStrD_error h2
    | ok d =>
      simp only [h2] at h
      cases h3 : optStrD raw.next_action "" "next_action" with
      | error e3 =>
        simp only [h3] at h
        cases h
        exact optStrD_error h3
      | ok na =>
        simp only [h3] at h
        cases h4 : optIntD raw.priority 2 "priority" with
        | error e4 =>
          simp only [h4] at h
          cases h
          exact optIntD_error h4
        | ok p =>
          simp only [h4] at h
          cases h5 : optStrD raw.status "in_progress" "status" with
          | error e5 =>
            simp only [h5] at h
            cases h
            exact optStrD_error h5
          | ok st =>
            simp only [h5] at h
            exact Except.noConfusion h

/-- A rejected body never reaches the handler: the error propagates
and the store is unchanged. -/
theorem api_create_task_invalid {db : Store} {raw : RawTaskIn} {now : Nat} {e : Err}
    (h : TaskIn.validate raw = .error e) :
    api_create_task db raw now = (.error e, db) := by
  simp [api_create_task, h]

/-- A null description makes validation fail. -/
theorem validate_null_desc (raw : RawTaskIn) (h : raw.description = some none) :
    ∃ e, TaskIn.validate raw = .error e := by
  cases htitle : raw.title with
  | none =>
    exact ⟨.validationError "title: field required",
      by simp [TaskIn.validate, reqStr, htitle]⟩
  | some o =>
    cases o with
    | none =>
      exact ⟨.validationError "title: none is not an allowed value",
        by simp [TaskIn.validate, reqStr, htitle]⟩
    | some s =>
      exact ⟨.validationError "description: none is not an allowed value",
        by simp [TaskIn.validate, reqStr, optStrD, htitle, h]⟩

/-- A null next_action makes validation fail. -/
theorem validate_null_next_act (raw : RawTaskIn) (h : raw.next_action = some none) :
    ∃ e, TaskIn.validate raw = .error e := by
  cases htitle : raw.title with
  | none =>
    exact ⟨.validationError "title: field required",
      by simp [TaskIn.validate, reqStr, htitle]⟩
  | some o =>
    cases o with
    | none =>
      exact ⟨.validationError "title: none is not an allowed value",
        by simp [TaskIn.validate, reqStr, htitle]⟩
    | some s =>
      cases hdesc : raw.description with
      | none =>
        exact ⟨.validationError "next_action: none is not an allowed value",
          by simp [TaskIn.validate, reqStr, optStrD, htitle, hdesc, h]⟩
      | some o2 =>
        cases o2 with
        | none =>
          exact ⟨.validationError "description: none is not an allowed value",
            by simp [TaskIn.validate, reqStr, optStrD, htitle, hdesc]⟩
        | some d =>
          exact ⟨.validationError "next_action: none is not an allowed value",
            by simp [TaskIn.validate, reqStr, optStrD, htitle, hdesc, h]⟩

/-- Priority and status of an accepted body come from the raw fields
through the pydantic rules. -/
theorem validate_ok_fields {raw : RawTaskIn} {body : TaskIn}
    (h : TaskIn.validate raw = .ok body) :
    optIntD raw.priority 2 "priority" = .ok body.priority ∧
    optStrD raw.status "in_progress" "status" = .ok body.status := by
  unfold TaskIn.validate at h
  cases h1 : reqStr raw.title "title" with
  | error e1 =>
    simp only [h1] at h
    exact Except.noConfusion h
  | ok title =>
    simp only [h1] at h
    cases h2 : optStrD raw.description "" "description" with
    | error e2 =>
      simp only [h2] at h
      exact Except.noConfusion h
    | ok d =>
      simp only [h2] at h
      cases h3 : optStrD raw.next_action "" "next_action" with
      | error e3 =>
        simp only [h3] at h
        exact Except.noConfusion h
      | ok na =>
        simp only [h3] at h
        cases h4 : optIntD raw.priority 2 "priority" with
        | error e4 =>
          simp only [h4] at h
          exact Except.noConfusion h
        | ok p =>
          simp only [h4] at h
          cases h5 : optStrD raw.status "in_progress" "status" with
          | error e5 =>
            simp only [h5] at h
            exact Except.noConfusion h
          | ok st =>
            simp only [h5] at h
            injection h with h6
            subst h6
            exact ⟨rfl, rfl⟩

/-- C10 amended: an explicitly supplied priority 0 or empty-string
status is silently replaced by the defaults (priority 2, status
in_progress), and no task created through POST /api/tasks carries
priority 0 or an empty status; but an explicit null description or
next_action is rejected with a validation error and the store is left
unchanged — those fields are plain str in TaskIn, so null is not
silently defaulted. -/
theorem create_task_falsy_amended (db : Store) (raw : RawTaskIn) (now : Nat) :
    (raw.description = some none →
        failsValidation (api_create_task db raw now).1 ∧
        (api_create_task db raw now).2 = db) ∧
    (raw.next_action = some none →
        failsValidation (api_create_task db raw now).1 ∧
        (api_create_task db raw now).2 = db) ∧
    (∀ t db2, api_create_task db raw now = (.ok t, db2) →
        t.priority ≠ 0 ∧ t.status ≠ "" ∧
        (raw.priority = some (some 0) → t.priority = 2) ∧
        (raw.status = some (some "") → t.status = "in_progress")) := by
  refine ⟨?_, ?_, ?_⟩
  · intro hd
    obtain ⟨e, he⟩ := validate_null_desc raw hd
    rw [api_create_task_invalid he]
    have hv := validate_error_isValidation raw he
    exact ⟨⟨e, rfl, hv⟩, rfl⟩
  · intro hd
    obtain ⟨e, he⟩ := validate_null_next_act raw hd
    rw [api_create_task_invalid he]
    have hv := validate_error_isValidation raw he
    exact ⟨⟨e, rfl, hv⟩, rfl⟩
  · intro t db2 h
    cases hv : TaskIn.validate raw with
    | error e =>
      rw [api_create_task_invalid hv] at h
      simp [Prod.ext_iff] at h
    | ok body =>
      have ht : (create_task db body now).1 = t := by
        have h1 := congrArg Prod.fst h
        simpa [api_create_task, hv] using h1
      obtain ⟨hpri, hst⟩ := validate_ok_fields hv
      have htp : t.priority = pyOrInt body.priority 2 := by
        rw [← ht]
        rfl
      have hts : t.status = pyOrStr body.status "in_progress" := by
        rw [← ht]
        rfl
      refine ⟨?_, ?_, ?_, ?_⟩
      · rw [htp]
        unfold pyOrInt
        split <;> simp_all
      · rw [hts]
        unfold pyOrStr
        split <;> simp_all
      · intro hp0
        rw [hp0] at hpri
        have hb0 : (0 : Int) = body.priority := by
          simpa [optIntD] using hpri
        rw [htp, ← hb0]
        rfl
      · intro hs0
        rw [hs0] at hst
        have hb0 : "" = body.status := by
          simpa [optStrD] using hst
        rw [hts, ← hb0]
        rfl

/-- Closed instances of create_task_falsy_amended at concrete inputs. -/
theorem create_task_falsy_amended_witness :
    failsValidation (api_create_task mkEmptyStore rawNullDesc 3).1 ∧
    exCreated.priority = 2 ∧ exCreated.status = "in_progress" := by
  refine ⟨((create_task_falsy_amended mkEmptyStore rawNullDesc 3).1 rfl).1, ?_, ?_⟩
  · exact ((create_task_falsy_amended mkEmptyStore rawZeroPrio 3).2.2 exCreated
      exCreatedStore rfl).2.2.1 rfl
  · exact ((create_task_falsy_amended mkEmptyStore rawZeroPrio 3).2.2 exCreated
      exCreatedStore rfl).2.2.2 rfl

end WorkMemory
